import Mathlib

set_option maxRecDepth 100000

/-!
Verification development for the tknz-site serverless handlers.

The development embeds, from the TypeScript sources:
  * the sign-token-txs handler (counter-signing coordinator),
  * the keypair-persistence step of create-token-meteora,
  * the request validation of create-pool and create-token-meteora,
  * the Solana versioned-transaction wire format at the level the handlers
    manipulate it (signature-slot array + message bytes; the message tail
    consisting of blockhash, instructions and address-table lookups is kept
    as opaque bytes, since no handler inspects it),
  * the JavaScript builtins the handlers call: JSON.parse (on the fragment
    of JSON the handlers exchange: literals, integers, escape-free strings,
    arrays, objects) and Buffer base64 encoding/decoding,
  * spec-modelled stand-ins for the external cryptographic primitives
    (tweetnacl Ed25519 signing and public-key derivation), which the spec
    treats as a deterministic black box.
-/

/- ## JSON values and JSON.parse
Model of the JavaScript builtin used by sign-token-txs (part_002 lines
129-130) to decode stored secrets, restricted to integers, escape-free
strings, literals, arrays and objects; fractional numbers and string
escapes are outside the fragment any handler exchanges and make the model
parser fail where real JSON.parse would succeed only on inputs no theorem
below quantifies over. -/

inductive Json where
  | null : Json
  | bool (b : Bool) : Json
  | num (i : Int) : Json
  | str (s : String) : Json
  | arr (items : List Json) : Json
  | obj (fields : List (String × Json)) : Json

def skipWs : List Char → List Char
  | [] => []
  | c :: cs => if c = ' ' || c = '\t' || c = '\n' || c = '\r' then skipWs cs else c :: cs

def parseStringChars : List Char → Option (List Char × List Char)
  | [] => none
  | c :: cs =>
    if c = '"' then some ([], cs)
    else if c = '\\' then none
    else match parseStringChars cs with
      | some (chars, r) => some (c :: chars, r)
      | none => none

def takeDigits : List Char → List Char × List Char
  | [] => ([], [])
  | c :: cs =>
    if c.isDigit then
      let p := takeDigits cs
      (c :: p.1, p.2)
    else ([], c :: cs)

def digitsToNat (ds : List Char) : Nat := ds.foldl (fun a c => a * 10 + (c.toNat - 48)) 0

mutual

def parseValue : Nat → List Char → Option (Json × List Char)
  | 0, _ => none
  | fuel + 1, cs =>
    match skipWs cs with
    | [] => none
    | c :: rest =>
      if c = 'n' then
        match rest with
        | 'u' :: 'l' :: 'l' :: r => some (Json.null, r)
        | _ => none
      else if c = 't' then
        match rest with
        | 'r' :: 'u' :: 'e' :: r => some (Json.bool true, r)
        | _ => none
      else if c = 'f' then
        match rest with
        | 'a' :: 'l' :: 's' :: 'e' :: r => some (Json.bool false, r)
        | _ => none
      else if c = '"' then
        match parseStringChars rest with
        | some (chars, r) => some (Json.str chars.asString, r)
        | none => none
      else if c = '[' then
        match skipWs rest with
        | ']' :: r => some (Json.arr [], r)
        | r => match parseItems fuel r with
          | some (items, r2) => some (Json.arr items, r2)
          | none => none
      else if c = '{' then
        match skipWs rest with
        | '}' :: r => some (Json.obj [], r)
        | r => match parseMembers fuel r with
          | some (fields, r2) => some (Json.obj fields, r2)
          | none => none
      else if c = '-' then
        match takeDigits rest with
        | ([], _) => none
        | (ds, r) => some (Json.num (-(Int.ofNat (digitsToNat ds))), r)
      else if c.isDigit then
        match takeDigits (c :: rest) with
        | ([], _) => none
        | (ds, r) => some (Json.num (Int.ofNat (digitsToNat ds)), r)
      else none

def parseItems : Nat → List Char → Option (List Json × List Char)
  | 0, _ => none
  | fuel + 1, cs =>
    match parseValue fuel cs with
    | none => none
    | some (v, r) =>
      match skipWs r with
      | ',' :: r2 =>
        match parseItems fuel r2 with
        | some (items, r3) => some (v :: items, r3)
        | none => none
      | ']' :: r2 => some ([v], r2)
      | _ => none

def parseMembers : Nat → List Char → Option (List (String × Json) × List Char)
  | 0, _ => none
  | fuel + 1, cs =>
    match skipWs cs with
    | '"' :: rest =>
      match parseStringChars rest with
      | none => none
      | some (keyChars, r) =>
        match skipWs r with
        | ':' :: r2 =>
          match parseValue fuel r2 with
          | none => none
          | some (v, r3) =>
            match skipWs r3 with
            | ',' :: r4 =>
              match parseMembers fuel r4 with
              | some (fields, r5) => some ((keyChars.asString, v) :: fields, r5)
              | none => none
            | '}' :: r4 => some ([(keyChars.asString, v)], r4)
            | _ => none
        | _ => none
    | _ => none

end

def jsonParse (s : String) : Option Json :=
  match parseValue (s.length + 1) s.toList with
  | some (v, rest) => if skipWs rest = [] then some v else none
  | none => none

/-- Rendering of a byte list as a JSON array literal, used to build store
contents for concrete scenarios. -/
def jsonArrayString (bs : List Nat) : String :=
  "[" ++ String.intercalate "," (bs.map toString) ++ "]"

/-- JavaScript ToUint8 conversion used by Uint8Array element stores:
the integer taken modulo 256 (nonnegative remainder). -/
def jsToUint8 (i : Int) : Nat := (i % 256).toNat

/-- Model of Uint8Array.from applied to a parsed JSON value, as in
sign-token-txs lines 129-130.  Arrays convert elementwise (numbers modulo
256, true to 1, other element shapes to 0 as an approximation of ToNumber
that no theorem below exercises); strings convert character-by-character;
values without length or iterator give an empty array. -/
def uint8From : Json → List Nat
  | Json.arr xs => xs.map fun x =>
      match x with
      | Json.num i => jsToUint8 i
      | Json.bool true => 1
      | _ => 0
  | Json.str s => s.toList.map fun c => if c.isDigit then c.toNat - 48 else 0
  | _ => []

/- ## Base64 (Node Buffer semantics: canonical encoding with padding,
lenient decoding that skips characters outside the alphabet). -/

def b64Alphabet : List Char :=
  "ABCDEFGHIJKLMNOPQRSTUVWXYZabcdefghijklmnopqrstuvwxyz0123456789+/".toList

def b64CharOf (n : Nat) : Char := b64Alphabet.getD n 'A'

def b64ValFrom : List Char → Char → Nat → Option Nat
  | [], _, _ => none
  | a :: as, c, i => if a = c then some i else b64ValFrom as c (i + 1)

def b64ValOf (c : Char) : Option Nat := b64ValFrom b64Alphabet c 0

def base64EncodeChars : List Nat → List Char
  | [] => []
  | [a] => [b64CharOf (a / 4), b64CharOf (a % 4 * 16), '=', '=']
  | [a, b] => [b64CharOf (a / 4), b64CharOf (a % 4 * 16 + b / 16), b64CharOf (b % 16 * 4), '=']
  | a :: b :: c :: rest =>
    b64CharOf (a / 4) :: b64CharOf (a % 4 * 16 + b / 16) :: b64CharOf (b % 16 * 4 + c / 64) ::
      b64CharOf (c % 64) :: base64EncodeChars rest

def base64Encode (bs : List Nat) : String := (base64EncodeChars bs).asString

def base64DecodeVals : List Nat → List Nat
  | a :: b :: c :: d :: rest =>
    (a * 4 + b / 16) :: (b % 16 * 16 + c / 4) :: (c % 4 * 64 + d) :: base64DecodeVals rest
  | [a, b, c] => [a * 4 + b / 16, b % 16 * 16 + c / 4]
  | [a, b] => [a * 4 + b / 16]
  | _ => []

def base64Decode (s : String) : List Nat := base64DecodeVals (s.toList.filterMap b64ValOf)

/- ## Cryptographic primitives (spec-modelled)
The spec treats tweetnacl as an external deterministic signature scheme:
signatures are a pure 64-byte function of (message bytes, secret key), and a
valid Ed25519 signature is never the all-zero vector.  The concrete mixing
function below is a stand-in carrying exactly those properties; no theorem
relies on any other property of it. -/

def mixByte (a b : Nat) : Nat := (a * 131 + b + 17) % 256

def hashBytes (seed : Nat) (bs : List Nat) : Nat := bs.foldl mixByte (seed % 256)

/-- Modelled from the spec: Ed25519 public key derivation from a 32-byte
seed (the library derives the public half stored in bytes 32..63 of a
tweetnacl secret key). -/
def derivePublicKey (seed : List Nat) : List Nat :=
  (List.range 32).map fun i => hashBytes (i + 101) seed

/-- Modelled from the spec: nacl.sign.detached - a deterministic 64-byte
signature over exactly the message bytes passed to it, never all-zero. -/
def naclSignDetached (msg secretKey : List Nat) : List Nat :=
  ((List.range 63).map fun i => hashBytes (hashBytes i secretKey) msg)
    ++ [hashBytes (hashBytes 255 secretKey) msg % 255 + 1]

/-- Solana web3.js Keypair: public key bytes plus the full 64-byte secret. -/
structure Keypair where
  publicKey : List Nat
  secretKey : List Nat
deriving DecidableEq

/-- Keypair.fromSecretKey: requires a 64-byte secret whose trailing 32 bytes
equal the public key derived from the leading 32-byte seed (web3.js validates
this and throws otherwise). -/
def keypairFromSecretKey (sk : List Nat) : Option Keypair :=
  if sk.length = 64 ∧ List.drop 32 sk = derivePublicKey (List.take 32 sk) then
    some ⟨List.drop 32 sk, sk⟩
  else none

/- ## Solana versioned transactions
A transaction is a signature-slot array plus a message.  The message is
embedded at the granularity the handlers use: prefix version byte (V0) or
none (legacy), the three header bytes, the static account keys, and the
remaining serialized bytes (blockhash, instructions, lookups) kept opaque
since no handler reads them. -/

structure VersionedMessage where
  version : Option Nat
  numRequiredSignatures : Nat
  numReadonlySignedAccounts : Nat
  numReadonlyUnsignedAccounts : Nat
  staticAccountKeys : List (List Nat)
  tail : List Nat
deriving DecidableEq

structure VersionedTransaction where
  signatures : List (List Nat)
  message : VersionedMessage
deriving DecidableEq

/-- Solana compact-u16 length encoding (7-bit groups, little-endian,
continuation bit). -/
def shortvecEncode (n : Nat) : List Nat :=
  if n < 128 then [n]
  else if n < 16384 then [n % 128 + 128, n / 128]
  else [n % 128 + 128, (n / 128) % 128 + 128, n / 16384]

def shortvecDecode : List Nat → Option (Nat × List Nat)
  | [] => none
  | b :: rest =>
    if b < 128 then some (b, rest)
    else match rest with
      | [] => none
      | b2 :: rest2 =>
        if b2 < 128 then some (b % 128 + b2 * 128, rest2)
        else match rest2 with
          | [] => none
          | b3 :: rest3 => some (b % 128 + b2 % 128 * 128 + b3 * 16384, rest3)

def splitOff (n : Nat) (bs : List Nat) : Option (List Nat × List Nat) :=
  if n ≤ bs.length then some (bs.take n, bs.drop n) else none

def chunksOf : Nat → Nat → List Nat → List (List Nat)
  | 0, _, _ => []
  | count + 1, k, bs => bs.take k :: chunksOf count k (bs.drop k)

/-- message.serialize(): version prefix byte (0x80 for V0, absent for
legacy), header, compact key table, then the opaque tail. -/
def serializeMessage (m : VersionedMessage) : List Nat :=
  (match m.version with
   | some v => [128 + v]
   | none => []) ++
  m.numRequiredSignatures :: m.numReadonlySignedAccounts :: m.numReadonlyUnsignedAccounts ::
    (shortvecEncode m.staticAccountKeys.length ++ m.staticAccountKeys.flatten ++ m.tail)

/-- VersionedTransaction.serialize(): compact signature count, the 64-byte
signatures, then the serialized message. -/
def serializeTransaction (tx : VersionedTransaction) : List Nat :=
  shortvecEncode tx.signatures.length ++ tx.signatures.flatten ++ serializeMessage tx.message

def parseMessageBody (version : Option Nat) : List Nat → Option VersionedMessage
  | h1 :: h2 :: h3 :: r =>
    match shortvecDecode r with
    | some (nkeys, r2) =>
      match splitOff (nkeys * 32) r2 with
      | some (keysFlat, tail) => some ⟨version, h1, h2, h3, chunksOf nkeys 32 keysFlat, tail⟩
      | none => none
    | none => none
  | _ => none

/-- VersionedMessage.deserialize: a set high bit on the first byte selects a
versioned message (only version 0 is supported, web3.js throws on any other
version), otherwise the message is legacy. -/
def deserializeMessage : List Nat → Option VersionedMessage
  | [] => none
  | b :: rest =>
    if 128 ≤ b then
      if b = 128 then parseMessageBody (some 0) rest else none
    else parseMessageBody none (b :: rest)

/-- VersionedTransaction.deserialize. -/
def deserializeTransaction (bs : List Nat) : Option VersionedTransaction :=
  match shortvecDecode bs with
  | none => none
  | some (nsigs, r1) =>
    match splitOff (nsigs * 64) r1 with
    | none => none
    | some (sigsFlat, r2) =>
      match deserializeMessage r2 with
      | none => none
      | some m => some ⟨chunksOf nsigs 64 sigsFlat, m⟩

/-- The header-declared required signers: the first numRequiredSignatures
static account keys. -/
def requiredSigners (tx : VersionedTransaction) : List (List Nat) :=
  tx.message.staticAccountKeys.take tx.message.numRequiredSignatures

def findIdxFrom (pk : List Nat) : List (List Nat) → Nat → Option Nat
  | [], _ => none
  | k :: ks, i => if k = pk then some i else findIdxFrom pk ks (i + 1)

/-- Index of a public key among the required signers (Array.findIndex with
PublicKey.equals in web3.js addSignature). -/
def findSignerIdx (pk : List Nat) (keys : List (List Nat)) : Option Nat :=
  findIdxFrom pk keys 0

/-- VersionedTransaction.addSignature: asserts a 64-byte signature and that
the public key is among the header-declared required signers, then
overwrites that slot (failure of either assertion throws in web3.js,
modelled as none). -/
def addSignature (tx : VersionedTransaction) (pubkey sig : List Nat) :
    Option VersionedTransaction :=
  if sig.length = 64 then
    match findSignerIdx pubkey (requiredSigners tx) with
    | some i => some { tx with signatures := tx.signatures.set i sig }
    | none => none
  else none

/-- A signature slot is empty when it is all zero bytes (the representation
web3.js uses for unsigned slots, and the emptiness test the repository's own
test harness applies in part_005 line 34). -/
def isEmptySlot (s : List Nat) : Bool := s.all fun b => b == 0

def slotAt (tx : VersionedTransaction) (j : Nat) : List Nat := tx.signatures.getD j []

def noEmptyRequiredSlots (tx : VersionedTransaction) : Bool :=
  (List.range tx.message.numRequiredSignatures).all fun i => !(isEmptySlot (slotAt tx i))

/- ## The sign-token-txs handler (src/unnamed/part_002, second handler,
lines 97-159), embedded from the field destructuring at line 119 onwards;
the method/body/JSON envelope checks above it are independent of the claims.
The key-value store is an oracle from Redis keys to stored strings; the
result is paired with the trace of store reads and signature computations
the handler performs.  An uncaught JavaScript exception (which the
serverless host converts to a 5xx response) is the exception constructor. -/

inductive RespBody where
  | err (msg : String)
  | signedPair (signedConfigTx signedPoolTx : String)
deriving DecidableEq

inductive HandlerResult where
  | response (statusCode : Nat) (body : RespBody)
  | exception (msg : String)
deriving DecidableEq

inductive Effect where
  | storeRead (key : String)
  | sigComputed (msg secretKey : List Nat)
deriving DecidableEq

def isSigComputedE : Effect → Bool
  | Effect.sigComputed _ _ => true
  | _ => false

/-- The destructured request payload of sign-token-txs (line 119); absent
fields are none. -/
structure SignReq where
  walletAddress : Option String
  poolConfigKey : Option String
  mint : Option String
  signedConfigTx : Option String
  signedPoolTx : Option String
deriving DecidableEq

/-- JavaScript falsiness of a destructured string field: absent or empty. -/
def isFalsy : Option String → Bool
  | none => true
  | some s => s == ""

/-- The line-120 validation condition. -/
def missingField (p : SignReq) : Bool :=
  isFalsy p.walletAddress || isFalsy p.poolConfigKey || isFalsy p.mint ||
    isFalsy p.signedConfigTx || isFalsy p.signedPoolTx

/-- The Redis key template of line 124. -/
def cfgRedisKeyOf (p : SignReq) : String :=
  "signer:" ++ p.walletAddress.getD "" ++ ":" ++ p.poolConfigKey.getD "" ++ ":config"

/-- The Redis key template of line 125. -/
def mintRedisKeyOf (p : SignReq) : String :=
  "signer:" ++ p.walletAddress.getD "" ++ ":" ++ p.mint.getD "" ++ ":mint"

/-- The retrieval pipeline sign-token-txs applies to a stored secret
(lines 129-132): JSON.parse, Uint8Array.from, Keypair.fromSecretKey.
none means the pipeline throws. -/
def decodeStoredSecret (v : String) : Option Keypair :=
  match jsonParse v with
  | none => none
  | some j => keypairFromSecretKey (uint8From j)

/-- The value create-token-meteora persists under a signer key
(src/netlify/functions/create-pool.ts lines 394-397 and 420-423): the
base64 encoding of the raw 64-byte secret key. -/
def storedSignerValue (secretKey : List Nat) : String := base64Encode secretKey

/-- The signer key template of create-token-meteora lines 392 and 418. -/
def signerRedisKey (wallet pubkey role : String) : String :=
  "signer:" ++ wallet ++ ":" ++ pubkey ++ ":" ++ role

def signTokenTxsHandler (store : String → Option String) (p : SignReq) :
    HandlerResult × List Effect :=
  if missingField p then
    (HandlerResult.response 400 (RespBody.err "Missing required fields"), [])
  else
    if isFalsy (store (cfgRedisKeyOf p)) || isFalsy (store (mintRedisKeyOf p)) then
      (HandlerResult.response 404 (RespBody.err "Keypair not found"),
        [Effect.storeRead (cfgRedisKeyOf p), Effect.storeRead (mintRedisKeyOf p)])
    else
      match jsonParse ((store (cfgRedisKeyOf p)).getD "") with
      | none =>
        (HandlerResult.exception "JSON.parse: invalid stored config secret",
          [Effect.storeRead (cfgRedisKeyOf p), Effect.storeRead (mintRedisKeyOf p)])
      | some cfgJson =>
        match jsonParse ((store (mintRedisKeyOf p)).getD "") with
        | none =>
          (HandlerResult.exception "JSON.parse: invalid stored mint secret",
            [Effect.storeRead (cfgRedisKeyOf p), Effect.storeRead (mintRedisKeyOf p)])
        | some mintJson =>
          match keypairFromSecretKey (uint8From cfgJson) with
          | none =>
            (HandlerResult.exception "Keypair.fromSecretKey: bad config secret",
              [Effect.storeRead (cfgRedisKeyOf p), Effect.storeRead (mintRedisKeyOf p)])
          | some configKP =>
            match keypairFromSecretKey (uint8From mintJson) with
            | none =>
              (HandlerResult.exception "Keypair.fromSecretKey: bad mint secret",
                [Effect.storeRead (cfgRedisKeyOf p), Effect.storeRead (mintRedisKeyOf p)])
            | some mintKP =>
              match deserializeTransaction (base64Decode (p.signedConfigTx.getD "")),
                    deserializeTransaction (base64Decode (p.signedPoolTx.getD "")) with
              | some configTx, some poolTx =>
                match addSignature configTx configKP.publicKey
                        (naclSignDetached (serializeMessage configTx.message) configKP.secretKey) with
                | none =>
                  (HandlerResult.exception "addSignature: config key is not a required signer",
                    [Effect.storeRead (cfgRedisKeyOf p), Effect.storeRead (mintRedisKeyOf p),
                     Effect.sigComputed (serializeMessage configTx.message) configKP.secretKey])
                | some configTx2 =>
                  match addSignature poolTx mintKP.publicKey
                          (naclSignDetached (serializeMessage poolTx.message) mintKP.secretKey) with
                  | none =>
                    (HandlerResult.exception "addSignature: mint key is not a required signer",
                      [Effect.storeRead (cfgRedisKeyOf p), Effect.storeRead (mintRedisKeyOf p),
                       Effect.sigComputed (serializeMessage configTx.message) configKP.secretKey,
                       Effect.sigComputed (serializeMessage poolTx.message) mintKP.secretKey])
                  | some poolTx2 =>
                    (HandlerResult.response 200
                        (RespBody.signedPair
                          (base64Encode (serializeTransaction configTx2))
                          (base64Encode (serializeTransaction poolTx2))),
                      [Effect.storeRead (cfgRedisKeyOf p), Effect.storeRead (mintRedisKeyOf p),
                       Effect.sigComputed (serializeMessage configTx.message) configKP.secretKey,
                       Effect.sigComputed (serializeMessage poolTx.message) mintKP.secretKey])
              | _, _ =>
                (HandlerResult.response 400 (RespBody.err "Invalid transaction data"),
                  [Effect.storeRead (cfgRedisKeyOf p), Effect.storeRead (mintRedisKeyOf p)])

/- ## create-pool and create-token-meteora (src/netlify/functions/create-pool.ts)
Embedded at the granularity the claims need: request validation, the
metadata-publisher dependency, and the exact argument record handed to the
external SDK builder for create-pool.  Everything downstream of validation
that a claim does not touch is abstracted as a continuation parameter, so
the validation theorems hold for every possible continuation. -/

structure TokenDetails where
  name : String
  ticker : String
  description : String
  imageUrl : String
deriving DecidableEq

/-- The create-pool request body (lines 39-43).  The handler destructures
only walletAddress, configKey and token (line 70); buyAmount models an
extra field a caller may supply, which the destructuring ignores. -/
structure CreatePoolPayload where
  walletAddress : Option String
  configKey : Option String
  token : Option TokenDetails
  buyAmount : Option Nat
deriving DecidableEq

/-- The line-72 validation condition of create-pool. -/
def createPoolMissing (p : CreatePoolPayload) : Bool :=
  isFalsy p.walletAddress || isFalsy p.configKey || p.token.isNone

/-- Effects of the two creation handlers relevant to the validation claims. -/
inductive CpEffect where
  | metadataUpload
  | firestoreCall
  | storeWrite (key : String)
  | rpcCall
  | sdkBuild
deriving DecidableEq

/-- create-pool handler, lines 45-78: CORS/method handling aside, the
request is validated before anything else runs; the whole body after
validation (metadata upload, RPC, SDK build, response assembly, lines
80-150) is the continuation rest. -/
def createPoolHandler (rest : CreatePoolPayload → HandlerResult × List CpEffect)
    (p : CreatePoolPayload) : HandlerResult × List CpEffect :=
  if createPoolMissing p then
    (HandlerResult.response 400 (RespBody.err "walletAddress, configKey and token are required"), [])
  else rest p

/-- Result of the metadata publisher (name, symbol, uri). -/
structure MetaResult where
  name : String
  symbol : String
  uri : String
deriving DecidableEq

/-- The Metaplex length safeguard of lines 96-101 (JavaScript slice). -/
def truncateStr (n : Nat) (s : String) : String :=
  if n < s.length then (s.toList.take n).asString else s

def metaplexTrim (meta : MetaResult) : MetaResult :=
  ⟨truncateStr 32 meta.name, truncateStr 10 meta.symbol, truncateStr 200 meta.uri⟩

/-- An opaque compiled instruction produced by the external Meteora DBC
SDK; the embedding never constructs or inspects one. -/
structure Instruction where
  programId : String
  dataTag : String
deriving DecidableEq

/-- The exact argument record create-pool passes to the SDK builder
dbcClient.pool.createPool (lines 109-117): freshly generated base mint,
the request's configKey and walletAddress, the trimmed published metadata,
and the treasury key as payer.  Note that no buy amount appears: the
createPool entry point has no such parameter. -/
structure CreatePoolSdkArgs where
  baseMint : List Nat
  config : String
  name : String
  symbol : String
  uri : String
  payer : String
  poolCreator : String
deriving DecidableEq

def createPoolSdkArgsOf (treasuryPk : String) (baseMint : List Nat)
    (meta : MetaResult) (p : CreatePoolPayload) : CreatePoolSdkArgs :=
  let m := metaplexTrim meta
  ⟨baseMint, p.configKey.getD "", m.name, m.symbol, m.uri, treasuryPk, p.walletAddress.getD ""⟩

/-- The instruction list embedded in the transaction create-pool returns
(lines 109-127: the SDK builder's instructions are compiled unchanged into
the returned message).  build is the external SDK builder; publish the
metadata publisher (none = upload failure, which aborts with 500 before any
transaction exists); baseMint the freshly generated mint public key. -/
def createPoolInstructions (build : CreatePoolSdkArgs → List Instruction)
    (treasuryPk : String) (baseMint : List Nat)
    (publish : TokenDetails → Option MetaResult)
    (p : CreatePoolPayload) : Option (List Instruction) :=
  if createPoolMissing p then none
  else
    match p.token with
    | none => none
    | some tok =>
      match publish tok with
      | none => none
      | some meta => some (build (createPoolSdkArgsOf treasuryPk baseMint meta p))

/-- The destructured create-token-meteora request body (line 328) at the
granularity of its validation: absent optional fields take the destructuring
defaults; the typeof and Number.isInteger checks are subsumed by the typing
of the model fields. -/
structure MeteoraPayload where
  walletAddress : Option String
  token : Option TokenDetails
  decimals : Option Int
  initialSupply : Option Int
  isLockLiquidity : Option Bool
deriving DecidableEq

/-- create-token-meteora handler, lines 305-344: the four input validations
run before the try block that performs the metadata upload, Firestore
allocation, store writes and SDK build, all of which are the continuation
rest. -/
def createTokenMeteoraHandler (rest : MeteoraPayload → HandlerResult × List CpEffect)
    (p : MeteoraPayload) : HandlerResult × List CpEffect :=
  if isFalsy p.walletAddress then
    (HandlerResult.response 400 (RespBody.err "Missing or invalid walletAddress"), [])
  else if p.token.isNone then
    (HandlerResult.response 400 (RespBody.err "Missing or invalid token data"), [])
  else if p.decimals.getD 9 < 0 || 18 < p.decimals.getD 9 then
    (HandlerResult.response 400 (RespBody.err "Invalid decimals; must be integer between 0 and 18"), [])
  else if p.initialSupply.getD 1000000000 < 0 then
    (HandlerResult.response 400 (RespBody.err "Invalid initialSupply; must be non-negative number"), [])
  else rest p

/- ## Concrete sample data used by counterexamples and witnesses -/

def sampleCfgSeed : List Nat := (List.range 32).map fun i => i + 1

def sampleCfgSecret : List Nat := sampleCfgSeed ++ derivePublicKey sampleCfgSeed

def sampleCfgPk : List Nat := derivePublicKey sampleCfgSeed

def sampleCfgKP : Keypair := ⟨sampleCfgPk, sampleCfgSecret⟩

def sampleMintSeed : List Nat := (List.range 32).map fun i => i + 33

def sampleMintSecret : List Nat := sampleMintSeed ++ derivePublicKey sampleMintSeed

def sampleMintPk : List Nat := derivePublicKey sampleMintSeed

def sampleMintKP : Keypair := ⟨sampleMintPk, sampleMintSecret⟩

def sampleClientPk : List Nat := List.replicate 32 7

/-- A store holding both sample secrets in the JSON-array format the
sign-token-txs retrieval path requires. -/
def sampleStore : String → Option String := fun k =>
  if k = "signer:w1:cfg1:config" then some (jsonArrayString sampleCfgSecret)
  else if k = "signer:w1:mint1:mint" then some (jsonArrayString sampleMintSecret)
  else none


/-- Config transaction for the C3 scenario: three required signers
(client, config key, mint key); the client slot is populated, the two
server slots are empty. -/
def c3T1 : VersionedTransaction :=
  ⟨[List.replicate 64 1, List.replicate 64 0, List.replicate 64 0],
   ⟨some 0, 3, 0, 1, [sampleClientPk, sampleCfgPk, sampleMintPk], List.replicate 32 5⟩⟩

/-- Pool transaction for the C3 scenario: client plus mint key. -/
def c3T2 : VersionedTransaction :=
  ⟨[List.replicate 64 2, List.replicate 64 0],
   ⟨some 0, 2, 0, 1, [sampleClientPk, sampleMintPk], List.replicate 32 6⟩⟩

def c3Req : SignReq :=
  ⟨some "w1", some "cfg1", some "mint1",
   some (base64Encode (serializeTransaction c3T1)),
   some (base64Encode (serializeTransaction c3T2))⟩

def c3U1 : VersionedTransaction :=
  { c3T1 with signatures :=
      c3T1.signatures.set 1 (naclSignDetached (serializeMessage c3T1.message) sampleCfgSecret) }

def c3U2 : VersionedTransaction :=
  { c3T2 with signatures :=
      c3T2.signatures.set 1 (naclSignDetached (serializeMessage c3T2.message) sampleMintSecret) }

/- ## Additional concrete data for the individual claims -/

/-- Store contents as create-token-meteora actually persists them (base64),
paired with the sign-token-txs request that later retrieves them. -/
def c1Store : String → Option String := fun k =>
  if k = signerRedisKey "w1" "cfg1" "config" then some (storedSignerValue sampleCfgSecret)
  else if k = signerRedisKey "w1" "mint1" "mint" then some (storedSignerValue sampleMintSecret)
  else none

def c1Req : SignReq := ⟨some "w1", some "cfg1", some "mint1", some "AAAA", some "AAAA"⟩

/-- An empty store (no keypair was ever persisted). -/
def c2Store : String → Option String := fun _ => none

/-- A request with all fields present whose transaction fields do not decode
to well-formed transactions. -/
def c2Req : SignReq := ⟨some "w1", some "cfg1", some "mint1", some "AAAA", some "AAAA"⟩

/-- A second store that agrees with c2Store on every signer key the request
can mention but differs elsewhere. -/
def c7StoreB : String → Option String := fun k => if k = "unrelated" then some "x" else none

/-- Witness data for the successful completion path: two transactions each
requiring the client plus exactly one server key, client slot populated. -/
def c3wT1 : VersionedTransaction :=
  ⟨[List.replicate 64 1, List.replicate 64 0],
   ⟨some 0, 2, 0, 1, [sampleClientPk, sampleCfgPk], List.replicate 32 5⟩⟩

def c3wT2 : VersionedTransaction :=
  ⟨[List.replicate 64 2, List.replicate 64 0],
   ⟨some 0, 2, 0, 1, [sampleClientPk, sampleMintPk], List.replicate 32 6⟩⟩

def c3wReq : SignReq :=
  ⟨some "w1", some "cfg1", some "mint1",
   some (base64Encode (serializeTransaction c3wT1)),
   some (base64Encode (serializeTransaction c3wT2))⟩

/-- C5 counterexample data: the config transaction arrives with the config
key slot already populated (64 bytes of 9), which the handler overwrites. -/
def c5T1 : VersionedTransaction :=
  ⟨[List.replicate 64 1, List.replicate 64 9],
   ⟨some 0, 2, 0, 1, [sampleClientPk, sampleCfgPk], List.replicate 32 5⟩⟩

def c5T2 : VersionedTransaction :=
  ⟨[List.replicate 64 2, List.replicate 64 0],
   ⟨some 0, 2, 0, 1, [sampleClientPk, sampleMintPk], List.replicate 32 6⟩⟩

def c5Req : SignReq :=
  ⟨some "w1", some "cfg1", some "mint1",
   some (base64Encode (serializeTransaction c5T1)),
   some (base64Encode (serializeTransaction c5T2))⟩

def c5U1 : VersionedTransaction :=
  { c5T1 with signatures :=
      c5T1.signatures.set 1 (naclSignDetached (serializeMessage c5T1.message) sampleCfgSecret) }

def c5U2 : VersionedTransaction :=
  { c5T2 with signatures :=
      c5T2.signatures.set 1 (naclSignDetached (serializeMessage c5T2.message) sampleMintSecret) }

/-- C10 witness data: completely unsigned transactions (every slot zero). -/
def c10T1 : VersionedTransaction :=
  ⟨[List.replicate 64 0, List.replicate 64 0],
   ⟨some 0, 2, 0, 1, [sampleClientPk, sampleCfgPk], List.replicate 32 5⟩⟩

def c10T2 : VersionedTransaction :=
  ⟨[List.replicate 64 0, List.replicate 64 0],
   ⟨some 0, 2, 0, 1, [sampleClientPk, sampleMintPk], List.replicate 32 6⟩⟩

def c10Req : SignReq :=
  ⟨some "w1", some "cfg1", some "mint1",
   some (base64Encode (serializeTransaction c10T1)),
   some (base64Encode (serializeTransaction c10T2))⟩

/- ## Formalizations of the claim statements that the code refutes -/

/-- The transaction carries the client signature: every required-signer slot
whose key is the client key is populated. -/
def clientSigned (clientPk : List Nat) (tx : VersionedTransaction) : Bool :=
  (List.range tx.message.numRequiredSignatures).all fun i =>
    !((requiredSigners tx).getD i [] == clientPk) || !(isEmptySlot (slotAt tx i))

/-- Every non-client required signer is one of the two keypairs the request
makes resolvable in the Keypair Store (config role or mint role). -/
def nonClientResolvable (clientPk : List Nat) (cfgKP mintKP : Keypair)
    (tx : VersionedTransaction) : Bool :=
  (requiredSigners tx).all fun k =>
    k == clientPk || k == cfgKP.publicKey || k == mintKP.publicKey

/-- The handler returned 200 with two transactions and each, decoded back,
has zero empty slots among the header-declared required-signer positions. -/
def signedOutputsComplete (r : HandlerResult) : Prop :=
  ∃ s1 s2, r = HandlerResult.response 200 (RespBody.signedPair s1 s2) ∧
    (∀ u, deserializeTransaction (base64Decode s1) = some u → noEmptyRequiredSlots u = true) ∧
    (∀ u, deserializeTransaction (base64Decode s2) = some u → noEmptyRequiredSlots u = true)

/-- The C3 claim as stated: whenever the request is well-formed, both server
keys resolve, both transactions deserialize, the client has signed, and all
non-client required signers are resolvable, the returned transactions have
no empty required-signer slot. -/
def c3Property : Prop :=
  ∀ (store : String → Option String) (p : SignReq) (clientPk : List Nat)
    (v w : String) (cfgKP mintKP : Keypair) (t1 t2 : VersionedTransaction),
    missingField p = false →
    store (cfgRedisKeyOf p) = some v → decodeStoredSecret v = some cfgKP →
    store (mintRedisKeyOf p) = some w → decodeStoredSecret w = some mintKP →
    deserializeTransaction (base64Decode (p.signedConfigTx.getD "")) = some t1 →
    deserializeTransaction (base64Decode (p.signedPoolTx.getD "")) = some t2 →
    clientSigned clientPk t1 = true → clientSigned clientPk t2 = true →
    nonClientResolvable clientPk cfgKP mintKP t1 = true →
    nonClientResolvable clientPk cfgKP mintKP t2 = true →
    signedOutputsComplete (signTokenTxsHandler store p).fst

/-- The returned encoded transaction, decoded back, has the same message,
the same number and order of signature slots, and every slot populated in
the input unchanged. -/
def framePreserved (t : VersionedTransaction) (s : String) : Prop :=
  ∀ u, deserializeTransaction (base64Decode s) = some u →
    u.message = t.message ∧ u.signatures.length = t.signatures.length ∧
    ∀ j, isEmptySlot (slotAt t j) = false → slotAt u j = slotAt t j

/-- The C5 claim as stated: for every accepted pair of transactions, the
response preserves message bytes, slot count and every already-populated
slot of both transactions. -/
def c5Property : Prop :=
  ∀ (store : String → Option String) (p : SignReq) (v w : String)
    (cfgKP mintKP : Keypair) (t1 t2 : VersionedTransaction) (s1 s2 : String),
    missingField p = false →
    store (cfgRedisKeyOf p) = some v → decodeStoredSecret v = some cfgKP →
    store (mintRedisKeyOf p) = some w → decodeStoredSecret w = some mintKP →
    deserializeTransaction (base64Decode (p.signedConfigTx.getD "")) = some t1 →
    deserializeTransaction (base64Decode (p.signedPoolTx.getD "")) = some t2 →
    (signTokenTxsHandler store p).fst = HandlerResult.response 200 (RespBody.signedPair s1 s2) →
    framePreserved t1 s1 ∧ framePreserved t2 s2

/-- The C6 claim as stated: with all fields present, an undeserializable
transaction is rejected with the invalid-transaction 400 regardless of the
store contents. -/
def c6Property : Prop :=
  ∀ (store : String → Option String) (p : SignReq),
    missingField p = false →
    (deserializeTransaction (base64Decode (p.signedConfigTx.getD "")) = none ∨
     deserializeTransaction (base64Decode (p.signedPoolTx.getD "")) = none) →
    (signTokenTxsHandler store p).fst =
      HandlerResult.response 400 (RespBody.err "Invalid transaction data")

/-- The C9 claim as stated, for a given SDK builder and a given notion of
which instructions are swap instructions: a create-pool request with
buyAmount 0 yields no swap instruction and one with positive buyAmount
yields one. -/
def c9Property (build : CreatePoolSdkArgs → List Instruction)
    (isSwap : Instruction → Bool) : Prop :=
  ∀ (treasuryPk : String) (baseMint : List Nat) (publish : TokenDetails → Option MetaResult)
    (p : CreatePoolPayload) (instrs : List Instruction),
    createPoolInstructions build treasuryPk baseMint publish p = some instrs →
      (p.buyAmount = some 0 → instrs.all (fun i => !(isSwap i)) = true) ∧
      (∀ n, p.buyAmount = some (n + 1) → instrs.any isSwap = true)

/-- No SDK builder and no classification of swap instructions can make the
C9 claim true of the create-pool handler. -/
def c9BuyConditionalityFails : Prop :=
  ∀ (build : CreatePoolSdkArgs → List Instruction) (isSwap : Instruction → Bool),
    ¬ c9Property build isSwap

def c9Token : TokenDetails := ⟨"name", "TCK", "desc", "img"⟩

def c9Publish : TokenDetails → Option MetaResult := fun _ => some ⟨"name", "TCK", "uri"⟩

def c9Req0 : CreatePoolPayload := ⟨some "w1", some "cfg1", some c9Token, some 0⟩

def c9Req1 : CreatePoolPayload := ⟨some "w1", some "cfg1", some c9Token, some 1⟩

/-- Concrete data for the C8 witness. -/
def c8SignReqMissing : SignReq := ⟨none, some "b", some "c", some "d", some "e"⟩

def c8CreatePoolReqMissing : CreatePoolPayload :=
  ⟨some "w", none, some ⟨"n", "T", "d", "i"⟩, some 5⟩

def c8MeteoraReqMissing : MeteoraPayload := ⟨none, some ⟨"n", "T", "d", "i"⟩, none, none, none⟩

def c8RestCreatePool : CreatePoolPayload → HandlerResult × List CpEffect :=
  fun _ => (HandlerResult.response 200 (RespBody.err "unreachable"), [CpEffect.metadataUpload])

def c8RestMeteora : MeteoraPayload → HandlerResult × List CpEffect :=
  fun _ => (HandlerResult.response 200 (RespBody.err "unreachable"), [CpEffect.metadataUpload])

/- ## Helper lemmas -/

theorem naclSign_length (msg sk : List Nat) : (naclSignDetached msg sk).length = 64 := by
  simp [naclSignDetached]

theorem naclSign_not_empty (msg sk : List Nat) :
    isEmptySlot (naclSignDetached msg sk) = false := by
  simp [naclSignDetached, isEmptySlot, List.all_append]

theorem getD_set_self (l : List (List Nat)) (i : Nat) (x : List Nat) (h : i < l.length) :
    (l.set i x).getD i [] = x := by
  induction l generalizing i with
  | nil => simp at h
  | cons a t ih =>
    cases i with
    | zero => rfl
    | succ n =>
      have h' : n < t.length := by simpa using h
      simpa using ih n h'

theorem getD_set_ne (l : List (List Nat)) (i j : Nat) (x : List Nat) (h : j ≠ i) :
    (l.set i x).getD j [] = l.getD j [] := by
  induction l generalizing i j with
  | nil => simp
  | cons a t ih =>
    cases i with
    | zero =>
      cases j with
      | zero => exact absurd rfl h
      | succ m => simp
    | succ n =>
      cases j with
      | zero => rfl
      | succ m =>
        have h' : m ≠ n := fun hh => h (by rw [hh])
        simpa using ih n m h'

theorem findIdxFrom_bound (pk : List Nat) (ks : List (List Nat)) :
    ∀ (s i : Nat), findIdxFrom pk ks s = some i → s ≤ i ∧ i < s + ks.length := by
  induction ks with
  | nil => intro s i h; simp [findIdxFrom] at h
  | cons k t ih =>
    intro s i h
    by_cases hk : k = pk
    · simp only [findIdxFrom, if_pos hk, Option.some.injEq] at h
      subst h
      simp only [List.length_cons]
      omega
    · simp only [findIdxFrom, if_neg hk] at h
      have := ih (s + 1) i h
      constructor
      · omega
      · simp only [List.length_cons]
        omega

theorem findSignerIdx_lt (pk : List Nat) (keys : List (List Nat)) (i : Nat)
    (h : findSignerIdx pk keys = some i) : i < keys.length := by
  have := findIdxFrom_bound pk keys 0 i h
  omega

theorem addSignature_eq (tx : VersionedTransaction) (pk sig : List Nat)
    (u : VersionedTransaction) (h : addSignature tx pk sig = some u) :
    ∃ i, findSignerIdx pk (requiredSigners tx) = some i ∧
      u = { tx with signatures := tx.signatures.set i sig } ∧
      i < (requiredSigners tx).length := by
  unfold addSignature at h
  by_cases hl : sig.length = 64
  · rw [if_pos hl] at h
    cases hfind : findSignerIdx pk (requiredSigners tx) with
    | none => rw [hfind] at h; cases h
    | some i =>
      rw [hfind] at h
      cases h
      exact ⟨i, rfl, rfl, findSignerIdx_lt pk (requiredSigners tx) i hfind⟩
  · rw [if_neg hl] at h; cases h

theorem jsonParse_empty : jsonParse "" = none := rfl

/-- When the argument of decodeStoredSecret succeeds, the stored string is
nonempty (the handler's falsiness test passes). -/
theorem jsonParse_some_ne_empty (v : String) (j : Json) (h : jsonParse v = some j) :
    (v == "") = false := by
  cases heq : v == "" with
  | false => rfl
  | true =>
    have hv : v = "" := by
      have := (beq_iff_eq (a := v) (b := "")).mp heq
      exact this
    rw [hv, jsonParse_empty] at h
    exact Option.noConfusion h

/-- Unfolding of decodeStoredSecret success. -/
theorem decodeStoredSecret_eq (v : String) (kp : Keypair)
    (h : decodeStoredSecret v = some kp) :
    ∃ j, jsonParse v = some j ∧ keypairFromSecretKey (uint8From j) = some kp := by
  unfold decodeStoredSecret at h
  cases hj : jsonParse v with
  | none => rw [hj] at h; cases h
  | some j => rw [hj] at h; exact ⟨j, rfl, h⟩

/-- Master reduction lemma: the sign-token-txs handler on the fully
successful path (fields present, both keys stored and decodable, both
transactions deserializable, both addSignature calls finding their signer). -/
theorem signHandler_success_eq (store : String → Option String) (p : SignReq)
    (v w : String) (cj mj : Json) (cfgKP mintKP : Keypair)
    (t1 t2 u1 u2 : VersionedTransaction)
    (hf : missingField p = false)
    (hcv : store (cfgRedisKeyOf p) = some v)
    (hmv : store (mintRedisKeyOf p) = some w)
    (hjc : jsonParse v = some cj)
    (hkc : keypairFromSecretKey (uint8From cj) = some cfgKP)
    (hjm : jsonParse w = some mj)
    (hkm : keypairFromSecretKey (uint8From mj) = some mintKP)
    (ht1 : deserializeTransaction (base64Decode (p.signedConfigTx.getD "")) = some t1)
    (ht2 : deserializeTransaction (base64Decode (p.signedPoolTx.getD "")) = some t2)
    (ha1 : addSignature t1 cfgKP.publicKey
      (naclSignDetached (serializeMessage t1.message) cfgKP.secretKey) = some u1)
    (ha2 : addSignature t2 mintKP.publicKey
      (naclSignDetached (serializeMessage t2.message) mintKP.secretKey) = some u2) :
    signTokenTxsHandler store p =
      (HandlerResult.response 200
        (RespBody.signedPair
          (base64Encode (serializeTransaction u1))
          (base64Encode (serializeTransaction u2))),
       [Effect.storeRead (cfgRedisKeyOf p), Effect.storeRead (mintRedisKeyOf p),
        Effect.sigComputed (serializeMessage t1.message) cfgKP.secretKey,
        Effect.sigComputed (serializeMessage t2.message) mintKP.secretKey]) := by
  have hvb : (v == "") = false := jsonParse_some_ne_empty v cj hjc
  have hwb : (w == "") = false := jsonParse_some_ne_empty w mj hjm
  simp only [signTokenTxsHandler, hf, hcv, hmv, isFalsy, hvb, hwb, Bool.or_self,
    Bool.false_eq_true, if_false, Option.getD_some, hjc, hjm, hkc, hkm, ht1, ht2, ha1, ha2]

/-- Reduction lemma for the 404 branch: a store miss on either key. -/
theorem signHandler_miss_eq (store : String → Option String) (p : SignReq)
    (hf : missingField p = false)
    (hmiss : store (cfgRedisKeyOf p) = none ∨ store (mintRedisKeyOf p) = none) :
    signTokenTxsHandler store p =
      (HandlerResult.response 404 (RespBody.err "Keypair not found"),
       [Effect.storeRead (cfgRedisKeyOf p), Effect.storeRead (mintRedisKeyOf p)]) := by
  cases hmiss with
  | inl h => simp only [signTokenTxsHandler, hf, h, isFalsy, Bool.true_or,
      Bool.false_eq_true, if_false, if_true]
  | inr h => simp only [signTokenTxsHandler, hf, h, isFalsy, Bool.or_true,
      Bool.false_eq_true, if_false, if_true]

/-- Reduction lemma for the invalid-transaction 400 branch: keys resolve but
a transaction fails to deserialize. -/
theorem signHandler_badtx_eq (store : String → Option String) (p : SignReq)
    (v w : String) (cj mj : Json) (cfgKP mintKP : Keypair)
    (hf : missingField p = false)
    (hcv : store (cfgRedisKeyOf p) = some v)
    (hmv : store (mintRedisKeyOf p) = some w)
    (hjc : jsonParse v = some cj)
    (hkc : keypairFromSecretKey (uint8From cj) = some cfgKP)
    (hjm : jsonParse w = some mj)
    (hkm : keypairFromSecretKey (uint8From mj) = some mintKP)
    (hbad : deserializeTransaction (base64Decode (p.signedConfigTx.getD "")) = none ∨
            deserializeTransaction (base64Decode (p.signedPoolTx.getD "")) = none) :
    signTokenTxsHandler store p =
      (HandlerResult.response 400 (RespBody.err "Invalid transaction data"),
       [Effect.storeRead (cfgRedisKeyOf p), Effect.storeRead (mintRedisKeyOf p)]) := by
  have hvb : (v == "") = false := jsonParse_some_ne_empty v cj hjc
  have hwb : (w == "") = false := jsonParse_some_ne_empty w mj hjm
  cases hbad with
  | inl h =>
    cases h2 : deserializeTransaction (base64Decode (p.signedPoolTx.getD "")) with
    | none => simp only [signTokenTxsHandler, hf, hcv, hmv, isFalsy, hvb, hwb, Bool.or_self,
        Bool.false_eq_true, if_false, Option.getD_some, hjc, hjm, hkc, hkm, h, h2]
    | some t2 => simp only [signTokenTxsHandler, hf, hcv, hmv, isFalsy, hvb, hwb, Bool.or_self,
        Bool.false_eq_true, if_false, Option.getD_some, hjc, hjm, hkc, hkm, h, h2]
  | inr h =>
    cases h1 : deserializeTransaction (base64Decode (p.signedConfigTx.getD "")) with
    | none => simp only [signTokenTxsHandler, hf, hcv, hmv, isFalsy, hvb, hwb, Bool.or_self,
        Bool.false_eq_true, if_false, Option.getD_some, hjc, hjm, hkc, hkm, h, h1]
    | some t1 => simp only [signTokenTxsHandler, hf, hcv, hmv, isFalsy, hvb, hwb, Bool.or_self,
        Bool.false_eq_true, if_false, Option.getD_some, hjc, hjm, hkc, hkm, h, h1]

/- ## Claim theorems -/

/-- C1 (code bug): the keypair store round trip is broken.  create-token-meteora
persists the secret as a base64 string, but the sign-token-txs retrieval
pipeline decodes the stored value with JSON.parse, which fails on a base64
string (here the stored value of a concrete 64-byte secret key), so the
retrieval never reconstructs the stored secretKeyBytes: the handler dies
with an uncaught exception instead of using the stored key. -/
theorem c1_store_retrieve_roundtrip_bug :
    decodeStoredSecret (storedSignerValue sampleCfgSecret) = none ∧
    decodeStoredSecret (storedSignerValue sampleMintSecret) = none ∧
    (signTokenTxsHandler c1Store c1Req).fst =
      HandlerResult.exception "JSON.parse: invalid stored config secret" :=
  ⟨rfl, rfl, rfl⟩

/-- C2 (confirmed): when the config-role or mint-role key is absent from the
store, sign-token-txs answers 404 Keypair not found having performed only the
two store reads: no signature is computed and no transaction is returned. -/
theorem c2_keypair_miss_all_or_nothing (store : String → Option String) (p : SignReq)
    (hf : missingField p = false)
    (hmiss : store (cfgRedisKeyOf p) = none ∨ store (mintRedisKeyOf p) = none) :
    signTokenTxsHandler store p =
      (HandlerResult.response 404 (RespBody.err "Keypair not found"),
       [Effect.storeRead (cfgRedisKeyOf p), Effect.storeRead (mintRedisKeyOf p)]) ∧
    (signTokenTxsHandler store p).snd.all (fun e => !(isSigComputedE e)) = true := by
  have h := signHandler_miss_eq store p hf hmiss
  refine ⟨h, ?_⟩
  rw [h]
  rfl

/-- C2 witness at the empty store. -/
theorem c2_keypair_miss_all_or_nothing_witness :
    missingField c2Req = false ∧ c2Store (cfgRedisKeyOf c2Req) = none ∧
    (signTokenTxsHandler c2Store c2Req =
      (HandlerResult.response 404 (RespBody.err "Keypair not found"),
       [Effect.storeRead (cfgRedisKeyOf c2Req), Effect.storeRead (mintRedisKeyOf c2Req)]) ∧
     (signTokenTxsHandler c2Store c2Req).snd.all (fun e => !(isSigComputedE e)) = true) :=
  ⟨rfl, rfl, c2_keypair_miss_all_or_nothing c2Store c2Req rfl (Or.inl rfl)⟩

/-- C7 (confirmed): sign-token-txs is a deterministic function of the request
and the two retrieved store values alone - two runs over stores that agree on
the request's config and mint signer keys produce identical results, and in
particular two runs with the same input are byte-identical.  The determinism
of the Ed25519 primitive itself is the spec's own premise, embedded in
naclSignDetached being a pure function. -/
theorem c7_signing_deterministic (store1 store2 : String → Option String) (p : SignReq)
    (hc : store1 (cfgRedisKeyOf p) = store2 (cfgRedisKeyOf p))
    (hm : store1 (mintRedisKeyOf p) = store2 (mintRedisKeyOf p)) :
    signTokenTxsHandler store1 p = signTokenTxsHandler store2 p := by
  unfold signTokenTxsHandler
  rw [hc, hm]

/-- C7 witness: two different stores agreeing on the two signer keys. -/
theorem c7_signing_deterministic_witness :
    c2Store (cfgRedisKeyOf c2Req) = c7StoreB (cfgRedisKeyOf c2Req) ∧
    c2Store (mintRedisKeyOf c2Req) = c7StoreB (mintRedisKeyOf c2Req) ∧
    signTokenTxsHandler c2Store c2Req = signTokenTxsHandler c7StoreB c2Req :=
  ⟨rfl, rfl, c7_signing_deterministic c2Store c7StoreB c2Req rfl rfl⟩

/-- C8 (confirmed): each of the three cited endpoints answers a missing
required field with a 400 response carrying an error body, with an empty
effect trace: no store write, no metadata upload, no RPC call, no SDK build
happens before the validation returns, whatever the rest of the handler
would do. -/
theorem c8_validation_before_effects :
    (∀ (store : String → Option String) (p : SignReq), missingField p = true →
      signTokenTxsHandler store p =
        (HandlerResult.response 400 (RespBody.err "Missing required fields"), [])) ∧
    (∀ (rest : CreatePoolPayload → HandlerResult × List CpEffect) (p : CreatePoolPayload),
      createPoolMissing p = true →
      createPoolHandler rest p =
        (HandlerResult.response 400
          (RespBody.err "walletAddress, configKey and token are required"), [])) ∧
    (∀ (rest : MeteoraPayload → HandlerResult × List CpEffect) (p : MeteoraPayload),
      (isFalsy p.walletAddress = true ∨ p.token = none) →
      ∃ msg, createTokenMeteoraHandler rest p =
        (HandlerResult.response 400 (RespBody.err msg), [])) := by
  refine ⟨?_, ?_, ?_⟩
  · intro store p h
    simp only [signTokenTxsHandler, h, if_true]
  · intro rest p h
    simp only [createPoolHandler, h, if_true]
  · intro rest p h
    cases hw : isFalsy p.walletAddress with
    | true =>
      exact ⟨"Missing or invalid walletAddress",
        by simp only [createTokenMeteoraHandler, hw, if_true]⟩
    | false =>
      have ht : p.token = none := by
        cases h with
        | inl h1 => rw [h1] at hw; exact Bool.noConfusion hw
        | inr h2 => exact h2
      refine ⟨"Missing or invalid token data", ?_⟩
      simp only [createTokenMeteoraHandler, hw, ht, Option.isNone_none,
        Bool.false_eq_true, if_false, if_true]

/-- C8 witness: one concrete missing-field request per endpoint. -/
theorem c8_validation_before_effects_witness :
    missingField c8SignReqMissing = true ∧
    createPoolMissing c8CreatePoolReqMissing = true ∧
    isFalsy c8MeteoraReqMissing.walletAddress = true ∧
    signTokenTxsHandler c2Store c8SignReqMissing =
      (HandlerResult.response 400 (RespBody.err "Missing required fields"), []) ∧
    createPoolHandler c8RestCreatePool c8CreatePoolReqMissing =
      (HandlerResult.response 400
        (RespBody.err "walletAddress, configKey and token are required"), []) ∧
    (∃ msg, createTokenMeteoraHandler c8RestMeteora c8MeteoraReqMissing =
      (HandlerResult.response 400 (RespBody.err msg), [])) :=
  ⟨rfl, rfl, rfl,
   c8_validation_before_effects.1 c2Store c8SignReqMissing rfl,
   c8_validation_before_effects.2.1 c8RestCreatePool c8CreatePoolReqMissing rfl,
   c8_validation_before_effects.2.2 c8RestMeteora c8MeteoraReqMissing (Or.inl rfl)⟩

/-- C9 counterexample: the claim cannot hold for any SDK builder or any
notion of swap instruction, because create-pool never reads buyAmount - two
requests identical except for buyAmount 0 versus 1 produce the same builder
arguments, hence the same instruction set, which the claim would require both
to contain and not to contain a swap. -/
theorem c9_claim_counterexample : c9BuyConditionalityFails := by
  intro build isSwap h
  have h0 := h "treasury" (List.replicate 32 1) c9Publish c9Req0
    (build (createPoolSdkArgsOf "treasury" (List.replicate 32 1) ⟨"name", "TCK", "uri"⟩ c9Req0))
    rfl
  have h1 := h "treasury" (List.replicate 32 1) c9Publish c9Req1
    (build (createPoolSdkArgsOf "treasury" (List.replicate 32 1) ⟨"name", "TCK", "uri"⟩ c9Req1))
    rfl
  have hall := h0.1 rfl
  have hany := h1.2 0 rfl
  have hargs : createPoolSdkArgsOf "treasury" (List.replicate 32 1) ⟨"name", "TCK", "uri"⟩ c9Req1 =
      createPoolSdkArgsOf "treasury" (List.replicate 32 1) ⟨"name", "TCK", "uri"⟩ c9Req0 := rfl
  rw [hargs] at hany
  rw [List.any_eq_true] at hany
  obtain ⟨x, hx, hsx⟩ := hany
  rw [List.all_eq_true] at hall
  have hfalse := hall x hx
  rw [hsx] at hfalse
  exact Bool.noConfusion hfalse

/-- C9 amended: the create-pool instruction set is independent of buyAmount
(the handler never destructures the field; the builder arguments cannot
mention it).  The first-buy swap conditionality lives in
create-token-meteora, which forwards the amount to the SDK swapBuyParam. -/
theorem c9_buyamount_ignored (build : CreatePoolSdkArgs → List Instruction)
    (treasuryPk : String) (baseMint : List Nat) (publish : TokenDetails → Option MetaResult)
    (p : CreatePoolPayload) (a b : Option Nat) :
    createPoolInstructions build treasuryPk baseMint publish { p with buyAmount := a } =
      createPoolInstructions build treasuryPk baseMint publish { p with buyAmount := b } := rfl

/-- C6 counterexample: the claim promises the invalid-transaction 400
regardless of store contents, but at a concrete request whose transactions
fail to deserialize and whose keys are absent from the store the handler
answers 404 Keypair not found - retrieval runs before deserialization. -/
theorem c6_claim_counterexample : ¬ c6Property := by
  intro h
  have hres := h c2Store c2Req rfl (Or.inl rfl)
  rw [show (signTokenTxsHandler c2Store c2Req).fst =
      HandlerResult.response 404 (RespBody.err "Keypair not found") from rfl] at hres
  injection hres with h1 h2
  exact absurd h1 (by decide)

/-- C6 amended: keypair retrieval and reconstruction precede deserialization;
once both server keys are present and decodable, a request in which either
transaction fails to deserialize is rejected with 400 Invalid transaction
data (and only the two store reads happen). -/
theorem c6_invalid_tx_rejected_after_retrieval (store : String → Option String) (p : SignReq)
    (v w : String) (cfgKP mintKP : Keypair)
    (hf : missingField p = false)
    (hcv : store (cfgRedisKeyOf p) = some v) (hdc : decodeStoredSecret v = some cfgKP)
    (hmv : store (mintRedisKeyOf p) = some w) (hdm : decodeStoredSecret w = some mintKP)
    (hbad : deserializeTransaction (base64Decode (p.signedConfigTx.getD "")) = none ∨
            deserializeTransaction (base64Decode (p.signedPoolTx.getD "")) = none) :
    signTokenTxsHandler store p =
      (HandlerResult.response 400 (RespBody.err "Invalid transaction data"),
       [Effect.storeRead (cfgRedisKeyOf p), Effect.storeRead (mintRedisKeyOf p)]) := by
  obtain ⟨cj, hjc, hkc⟩ := decodeStoredSecret_eq v cfgKP hdc
  obtain ⟨mj, hjm, hkm⟩ := decodeStoredSecret_eq w mintKP hdm
  exact signHandler_badtx_eq store p v w cj mj cfgKP mintKP hf hcv hmv hjc hkc hjm hkm hbad

/-- C6 amended witness: decodable stored keys plus an undecodable
transaction yield the 400. -/
theorem c6_invalid_tx_rejected_after_retrieval_witness :
    sampleStore (cfgRedisKeyOf c2Req) = some (jsonArrayString sampleCfgSecret) ∧
    decodeStoredSecret (jsonArrayString sampleCfgSecret) = some sampleCfgKP ∧
    deserializeTransaction (base64Decode (c2Req.signedConfigTx.getD "")) = none ∧
    signTokenTxsHandler sampleStore c2Req =
      (HandlerResult.response 400 (RespBody.err "Invalid transaction data"),
       [Effect.storeRead (cfgRedisKeyOf c2Req), Effect.storeRead (mintRedisKeyOf c2Req)]) :=
  ⟨rfl, rfl, rfl,
   c6_invalid_tx_rejected_after_retrieval sampleStore c2Req
     (jsonArrayString sampleCfgSecret) (jsonArrayString sampleMintSecret)
     sampleCfgKP sampleMintKP rfl rfl rfl rfl rfl (Or.inl rfl)⟩

/-- C3 counterexample: a config transaction declaring three required signers
(client, config key, mint key) with the client slot populated and both
server keys resolvable in the store - every non-client required signer is
resolvable - yet the handler signs only with the config key, so the
returned config transaction still has an empty (all-zero) slot among the
first three required-signer positions. -/
theorem c3_claim_counterexample : ¬ c3Property := by
  intro h
  have hcomp := h sampleStore c3Req sampleClientPk
    (jsonArrayString sampleCfgSecret) (jsonArrayString sampleMintSecret)
    sampleCfgKP sampleMintKP c3T1 c3T2
    rfl rfl rfl rfl rfl rfl rfl rfl rfl rfl rfl
  obtain ⟨s1, s2, heq, h1, _⟩ := hcomp
  rw [show (signTokenTxsHandler sampleStore c3Req).fst =
      HandlerResult.response 200 (RespBody.signedPair
        (base64Encode (serializeTransaction c3U1))
        (base64Encode (serializeTransaction c3U2))) from rfl] at heq
  injection heq with hstat hbody
  injection hbody with hs1 hs2
  subst hs1
  have hu := h1 c3U1 rfl
  rw [show noEmptyRequiredSlots c3U1 = false from rfl] at hu
  exact Bool.noConfusion hu

/-- C3 amended: the handler appends exactly one signature per transaction -
the config key's to the first and the mint key's to the second.  Completion
is reached exactly when each transaction's empty required-signer slots are
confined to that key's slot (the client having already signed the rest):
under those hypotheses the returned transactions have zero empty slots
among the header-declared required-signer positions. -/
theorem c3_completion_amended (store : String → Option String) (p : SignReq)
    (v w : String) (cfgKP mintKP : Keypair) (t1 t2 : VersionedTransaction) (i1 i2 : Nat)
    (hf : missingField p = false)
    (hcv : store (cfgRedisKeyOf p) = some v) (hdc : decodeStoredSecret v = some cfgKP)
    (hmv : store (mintRedisKeyOf p) = some w) (hdm : decodeStoredSecret w = some mintKP)
    (ht1 : deserializeTransaction (base64Decode (p.signedConfigTx.getD "")) = some t1)
    (ht2 : deserializeTransaction (base64Decode (p.signedPoolTx.getD "")) = some t2)
    (hi1 : findSignerIdx cfgKP.publicKey (requiredSigners t1) = some i1)
    (hi2 : findSignerIdx mintKP.publicKey (requiredSigners t2) = some i2)
    (hlen1 : t1.message.numRequiredSignatures ≤ t1.signatures.length)
    (hlen2 : t2.message.numRequiredSignatures ≤ t2.signatures.length)
    (hempty1 : ∀ j < t1.message.numRequiredSignatures, isEmptySlot (slotAt t1 j) = true → j = i1)
    (hempty2 : ∀ j < t2.message.numRequiredSignatures, isEmptySlot (slotAt t2 j) = true → j = i2) :
    ∃ u1 u2,
      (signTokenTxsHandler store p).fst =
        HandlerResult.response 200 (RespBody.signedPair
          (base64Encode (serializeTransaction u1)) (base64Encode (serializeTransaction u2))) ∧
      noEmptyRequiredSlots u1 = true ∧ noEmptyRequiredSlots u2 = true := by
  obtain ⟨cj, hjc, hkc⟩ := decodeStoredSecret_eq v cfgKP hdc
  obtain ⟨mj, hjm, hkm⟩ := decodeStoredSecret_eq w mintKP hdm
  have hbound1 : i1 < t1.signatures.length := by
    have ha := findSignerIdx_lt _ _ _ hi1
    have hb : (requiredSigners t1).length ≤ t1.message.numRequiredSignatures := by
      rw [requiredSigners, List.length_take]
      exact Nat.min_le_left _ _
    omega
  have hbound2 : i2 < t2.signatures.length := by
    have ha := findSignerIdx_lt _ _ _ hi2
    have hb : (requiredSigners t2).length ≤ t2.message.numRequiredSignatures := by
      rw [requiredSigners, List.length_take]
      exact Nat.min_le_left _ _
    omega
  have ha1 : addSignature t1 cfgKP.publicKey (naclSignDetached (serializeMessage t1.message) cfgKP.secretKey) = some (VersionedTransaction.mk (t1.signatures.set i1 (naclSignDetached (serializeMessage t1.message) cfgKP.secretKey)) t1.message) := by
    unfold addSignature
    rw [if_pos (naclSign_length _ _), hi1]
  have ha2 : addSignature t2 mintKP.publicKey (naclSignDetached (serializeMessage t2.message) mintKP.secretKey) = some (VersionedTransaction.mk (t2.signatures.set i2 (naclSignDetached (serializeMessage t2.message) mintKP.secretKey)) t2.message) := by
    unfold addSignature
    rw [if_pos (naclSign_length _ _), hi2]
  have hmain := signHandler_success_eq store p v w cj mj cfgKP mintKP t1 t2 _ _
    hf hcv hmv hjc hkc hjm hkm ht1 ht2 ha1 ha2
  refine ⟨VersionedTransaction.mk (t1.signatures.set i1 (naclSignDetached (serializeMessage t1.message) cfgKP.secretKey)) t1.message, VersionedTransaction.mk (t2.signatures.set i2 (naclSignDetached (serializeMessage t2.message) mintKP.secretKey)) t2.message, ?_, ?_, ?_⟩
  · rw [hmain]
  · simp only [noEmptyRequiredSlots, List.all_eq_true]
    intro i hi
    rw [List.mem_range] at hi
    by_cases hij : i = i1
    · subst hij
      have hslot : slotAt (VersionedTransaction.mk (t1.signatures.set i (naclSignDetached (serializeMessage t1.message) cfgKP.secretKey)) t1.message) i = naclSignDetached (serializeMessage t1.message) cfgKP.secretKey := by
        simp only [slotAt]
        exact getD_set_self _ _ _ hbound1
      rw [hslot, naclSign_not_empty]
      rfl
    · have hslot : slotAt (VersionedTransaction.mk (t1.signatures.set i1 (naclSignDetached (serializeMessage t1.message) cfgKP.secretKey)) t1.message) i = slotAt t1 i := by
        simp only [slotAt]
        exact getD_set_ne _ _ _ _ hij
      rw [hslot]
      cases hE : isEmptySlot (slotAt t1 i) with
      | false => rfl
      | true => exact absurd (hempty1 i hi hE) hij
  · simp only [noEmptyRequiredSlots, List.all_eq_true]
    intro i hi
    rw [List.mem_range] at hi
    by_cases hij : i = i2
    · subst hij
      have hslot : slotAt (VersionedTransaction.mk (t2.signatures.set i (naclSignDetached (serializeMessage t2.message) mintKP.secretKey)) t2.message) i = naclSignDetached (serializeMessage t2.message) mintKP.secretKey := by
        simp only [slotAt]
        exact getD_set_self _ _ _ hbound2
      rw [hslot, naclSign_not_empty]
      rfl
    · have hslot : slotAt (VersionedTransaction.mk (t2.signatures.set i2 (naclSignDetached (serializeMessage t2.message) mintKP.secretKey)) t2.message) i = slotAt t2 i := by
        simp only [slotAt]
        exact getD_set_ne _ _ _ _ hij
      rw [hslot]
      cases hE : isEmptySlot (slotAt t2 i) with
      | false => rfl
      | true => exact absurd (hempty2 i hi hE) hij

/-- C3 amended witness: both transactions have their single empty slot at
the respective server key's position; the outputs are fully signed. -/
theorem c3_completion_amended_witness :
    findSignerIdx sampleCfgKP.publicKey (requiredSigners c3wT1) = some 1 ∧
    findSignerIdx sampleMintKP.publicKey (requiredSigners c3wT2) = some 1 ∧
    (∀ j < c3wT1.message.numRequiredSignatures, isEmptySlot (slotAt c3wT1 j) = true → j = 1) ∧
    (∃ u1 u2,
      (signTokenTxsHandler sampleStore c3wReq).fst =
        HandlerResult.response 200 (RespBody.signedPair
          (base64Encode (serializeTransaction u1)) (base64Encode (serializeTransaction u2))) ∧
      noEmptyRequiredSlots u1 = true ∧ noEmptyRequiredSlots u2 = true) :=
  ⟨rfl, rfl, by decide,
   c3_completion_amended sampleStore c3wReq (jsonArrayString sampleCfgSecret)
     (jsonArrayString sampleMintSecret) sampleCfgKP sampleMintKP c3wT1 c3wT2 1 1
     rfl rfl rfl rfl rfl rfl rfl rfl rfl (by decide) (by decide) (by decide) (by decide)⟩

/-- C4 (confirmed): the signature appended to each accepted transaction is
the deterministic signature over exactly the serialized message bytes
(serializeMessage, never the whole serializeTransaction) under the secret
key retrieved from the store, placed at the index of that key's public key
in the header-declared required-signer order. -/
theorem c4_signature_correctness (store : String → Option String) (p : SignReq)
    (v w : String) (cfgKP mintKP : Keypair) (t1 t2 : VersionedTransaction) (i1 i2 : Nat)
    (hf : missingField p = false)
    (hcv : store (cfgRedisKeyOf p) = some v) (hdc : decodeStoredSecret v = some cfgKP)
    (hmv : store (mintRedisKeyOf p) = some w) (hdm : decodeStoredSecret w = some mintKP)
    (ht1 : deserializeTransaction (base64Decode (p.signedConfigTx.getD "")) = some t1)
    (ht2 : deserializeTransaction (base64Decode (p.signedPoolTx.getD "")) = some t2)
    (hi1 : findSignerIdx cfgKP.publicKey (requiredSigners t1) = some i1)
    (hi2 : findSignerIdx mintKP.publicKey (requiredSigners t2) = some i2)
    (hlen1 : t1.message.numRequiredSignatures ≤ t1.signatures.length)
    (hlen2 : t2.message.numRequiredSignatures ≤ t2.signatures.length) :
    ∃ u1 u2,
      (signTokenTxsHandler store p).fst =
        HandlerResult.response 200 (RespBody.signedPair
          (base64Encode (serializeTransaction u1)) (base64Encode (serializeTransaction u2))) ∧
      u1 = VersionedTransaction.mk (t1.signatures.set i1 (naclSignDetached (serializeMessage t1.message) cfgKP.secretKey)) t1.message ∧
      u2 = VersionedTransaction.mk (t2.signatures.set i2 (naclSignDetached (serializeMessage t2.message) mintKP.secretKey)) t2.message ∧
      slotAt u1 i1 = naclSignDetached (serializeMessage t1.message) cfgKP.secretKey ∧
      slotAt u2 i2 = naclSignDetached (serializeMessage t2.message) mintKP.secretKey := by
  obtain ⟨cj, hjc, hkc⟩ := decodeStoredSecret_eq v cfgKP hdc
  obtain ⟨mj, hjm, hkm⟩ := decodeStoredSecret_eq w mintKP hdm
  have hbound1 : i1 < t1.signatures.length := by
    have ha := findSignerIdx_lt _ _ _ hi1
    have hb : (requiredSigners t1).length ≤ t1.message.numRequiredSignatures := by
      rw [requiredSigners, List.length_take]
      exact Nat.min_le_left _ _
    omega
  have hbound2 : i2 < t2.signatures.length := by
    have ha := findSignerIdx_lt _ _ _ hi2
    have hb : (requiredSigners t2).length ≤ t2.message.numRequiredSignatures := by
      rw [requiredSigners, List.length_take]
      exact Nat.min_le_left _ _
    omega
  have ha1 : addSignature t1 cfgKP.publicKey (naclSignDetached (serializeMessage t1.message) cfgKP.secretKey) = some (VersionedTransaction.mk (t1.signatures.set i1 (naclSignDetached (serializeMessage t1.message) cfgKP.secretKey)) t1.message) := by
    unfold addSignature
    rw [if_pos (naclSign_length _ _), hi1]
  have ha2 : addSignature t2 mintKP.publicKey (naclSignDetached (serializeMessage t2.message) mintKP.secretKey) = some (VersionedTransaction.mk (t2.signatures.set i2 (naclSignDetached (serializeMessage t2.message) mintKP.secretKey)) t2.message) := by
    unfold addSignature
    rw [if_pos (naclSign_length _ _), hi2]
  have hmain := signHandler_success_eq store p v w cj mj cfgKP mintKP t1 t2 _ _
    hf hcv hmv hjc hkc hjm hkm ht1 ht2 ha1 ha2
  refine ⟨VersionedTransaction.mk (t1.signatures.set i1 (naclSignDetached (serializeMessage t1.message) cfgKP.secretKey)) t1.message, VersionedTransaction.mk (t2.signatures.set i2 (naclSignDetached (serializeMessage t2.message) mintKP.secretKey)) t2.message, ?_, rfl, rfl, ?_, ?_⟩
  · rw [hmain]
  · simp only [slotAt]
    exact getD_set_self _ _ _ hbound1
  · simp only [slotAt]
    exact getD_set_self _ _ _ hbound2

/-- C4 witness at the concrete completion scenario. -/
theorem c4_signature_correctness_witness :
    findSignerIdx sampleCfgKP.publicKey (requiredSigners c3wT1) = some 1 ∧
    (∃ u1 u2,
      (signTokenTxsHandler sampleStore c3wReq).fst =
        HandlerResult.response 200 (RespBody.signedPair
          (base64Encode (serializeTransaction u1)) (base64Encode (serializeTransaction u2))) ∧
      u1 = VersionedTransaction.mk (c3wT1.signatures.set 1 (naclSignDetached (serializeMessage c3wT1.message) sampleCfgKP.secretKey)) c3wT1.message ∧
      u2 = VersionedTransaction.mk (c3wT2.signatures.set 1 (naclSignDetached (serializeMessage c3wT2.message) sampleMintKP.secretKey)) c3wT2.message ∧
      slotAt u1 1 = naclSignDetached (serializeMessage c3wT1.message) sampleCfgKP.secretKey ∧
      slotAt u2 1 = naclSignDetached (serializeMessage c3wT2.message) sampleMintKP.secretKey) :=
  ⟨rfl,
   c4_signature_correctness sampleStore c3wReq (jsonArrayString sampleCfgSecret)
     (jsonArrayString sampleMintSecret) sampleCfgKP sampleMintKP c3wT1 c3wT2 1 1
     rfl rfl rfl rfl rfl rfl rfl rfl rfl (by decide) (by decide)⟩

/-- C5 counterexample: a transaction that arrives with the config key's slot
already populated (by the client) is still overwritten by the handler -
the output differs from the input at a previously populated slot, refuting
the never-touch-filled-slots claim. -/
theorem c5_claim_counterexample : ¬ c5Property := by
  intro h
  have hpair := h sampleStore c5Req (jsonArrayString sampleCfgSecret)
    (jsonArrayString sampleMintSecret) sampleCfgKP sampleMintKP c5T1 c5T2
    (base64Encode (serializeTransaction c5U1)) (base64Encode (serializeTransaction c5U2))
    rfl rfl rfl rfl rfl rfl rfl rfl
  obtain ⟨hframe1, _⟩ := hpair
  have hu := hframe1 c5U1 rfl
  obtain ⟨_, _, hslots⟩ := hu
  have hcontra := hslots 1 rfl
  have hne : slotAt c5U1 1 ≠ slotAt c5T1 1 := by decide
  exact hne hcontra

/-- C5 amended: the handler preserves the message bytes, the slot-array
length and order, and every slot other than the config key's slot of the
first transaction and the mint key's slot of the second; those two slots
are unconditionally overwritten with the deterministic server signature
(so a slot already holding that exact signature is unchanged, any other
prior content is replaced). -/
theorem c5_frame_amended (store : String → Option String) (p : SignReq)
    (v w : String) (cfgKP mintKP : Keypair) (t1 t2 : VersionedTransaction) (i1 i2 : Nat)
    (hf : missingField p = false)
    (hcv : store (cfgRedisKeyOf p) = some v) (hdc : decodeStoredSecret v = some cfgKP)
    (hmv : store (mintRedisKeyOf p) = some w) (hdm : decodeStoredSecret w = some mintKP)
    (ht1 : deserializeTransaction (base64Decode (p.signedConfigTx.getD "")) = some t1)
    (ht2 : deserializeTransaction (base64Decode (p.signedPoolTx.getD "")) = some t2)
    (hi1 : findSignerIdx cfgKP.publicKey (requiredSigners t1) = some i1)
    (hi2 : findSignerIdx mintKP.publicKey (requiredSigners t2) = some i2) :
    ∃ u1 u2,
      (signTokenTxsHandler store p).fst =
        HandlerResult.response 200 (RespBody.signedPair
          (base64Encode (serializeTransaction u1)) (base64Encode (serializeTransaction u2))) ∧
      u1.message = t1.message ∧ u1.signatures.length = t1.signatures.length ∧
      (∀ j, j ≠ i1 → slotAt u1 j = slotAt t1 j) ∧
      u2.message = t2.message ∧ u2.signatures.length = t2.signatures.length ∧
      (∀ j, j ≠ i2 → slotAt u2 j = slotAt t2 j) := by
  obtain ⟨cj, hjc, hkc⟩ := decodeStoredSecret_eq v cfgKP hdc
  obtain ⟨mj, hjm, hkm⟩ := decodeStoredSecret_eq w mintKP hdm
  have ha1 : addSignature t1 cfgKP.publicKey (naclSignDetached (serializeMessage t1.message) cfgKP.secretKey) = some (VersionedTransaction.mk (t1.signatures.set i1 (naclSignDetached (serializeMessage t1.message) cfgKP.secretKey)) t1.message) := by
    unfold addSignature
    rw [if_pos (naclSign_length _ _), hi1]
  have ha2 : addSignature t2 mintKP.publicKey (naclSignDetached (serializeMessage t2.message) mintKP.secretKey) = some (VersionedTransaction.mk (t2.signatures.set i2 (naclSignDetached (serializeMessage t2.message) mintKP.secretKey)) t2.message) := by
    unfold addSignature
    rw [if_pos (naclSign_length _ _), hi2]
  have hmain := signHandler_success_eq store p v w cj mj cfgKP mintKP t1 t2 _ _
    hf hcv hmv hjc hkc hjm hkm ht1 ht2 ha1 ha2
  refine ⟨VersionedTransaction.mk (t1.signatures.set i1 (naclSignDetached (serializeMessage t1.message) cfgKP.secretKey)) t1.message, VersionedTransaction.mk (t2.signatures.set i2 (naclSignDetached (serializeMessage t2.message) mintKP.secretKey)) t2.message, ?_, rfl, ?_, ?_, rfl, ?_, ?_⟩
  · rw [hmain]
  · simp [List.length_set]
  · intro j hj
    simp only [slotAt]
    exact getD_set_ne _ _ _ _ hj
  · simp [List.length_set]
  · intro j hj
    simp only [slotAt]
    exact getD_set_ne _ _ _ _ hj

/-- C5 amended witness. -/
theorem c5_frame_amended_witness :
    findSignerIdx sampleCfgKP.publicKey (requiredSigners c3wT1) = some 1 ∧
    (∃ u1 u2,
      (signTokenTxsHandler sampleStore c3wReq).fst =
        HandlerResult.response 200 (RespBody.signedPair
          (base64Encode (serializeTransaction u1)) (base64Encode (serializeTransaction u2))) ∧
      u1.message = c3wT1.message ∧ u1.signatures.length = c3wT1.signatures.length ∧
      (∀ j, j ≠ 1 → slotAt u1 j = slotAt c3wT1 j) ∧
      u2.message = c3wT2.message ∧ u2.signatures.length = c3wT2.signatures.length ∧
      (∀ j, j ≠ 1 → slotAt u2 j = slotAt c3wT2 j)) :=
  ⟨rfl,
   c5_frame_amended sampleStore c3wReq (jsonArrayString sampleCfgSecret)
     (jsonArrayString sampleMintSecret) sampleCfgKP sampleMintKP c3wT1 c3wT2 1 1
     rfl rfl rfl rfl rfl rfl rfl rfl rfl⟩

/-- C10 (confirmed, implicit claim): the handler imposes no precondition on
existing signatures - with fields present, both keys resolvable and both
transactions deserializable it returns 200 and installs its server
signatures even when every input slot is empty (completely unsigned
transactions); no verification of any existing signature happens. -/
theorem c10_no_signature_precondition (store : String → Option String) (p : SignReq)
    (v w : String) (cfgKP mintKP : Keypair) (t1 t2 : VersionedTransaction) (i1 i2 : Nat)
    (hf : missingField p = false)
    (hcv : store (cfgRedisKeyOf p) = some v) (hdc : decodeStoredSecret v = some cfgKP)
    (hmv : store (mintRedisKeyOf p) = some w) (hdm : decodeStoredSecret w = some mintKP)
    (ht1 : deserializeTransaction (base64Decode (p.signedConfigTx.getD "")) = some t1)
    (ht2 : deserializeTransaction (base64Decode (p.signedPoolTx.getD "")) = some t2)
    (hi1 : findSignerIdx cfgKP.publicKey (requiredSigners t1) = some i1)
    (hi2 : findSignerIdx mintKP.publicKey (requiredSigners t2) = some i2)
    (hlen1 : t1.message.numRequiredSignatures ≤ t1.signatures.length)
    (hlen2 : t2.message.numRequiredSignatures ≤ t2.signatures.length)
    (hunsigned1 : t1.signatures.all isEmptySlot = true)
    (hunsigned2 : t2.signatures.all isEmptySlot = true) :
    ∃ u1 u2,
      (signTokenTxsHandler store p).fst =
        HandlerResult.response 200 (RespBody.signedPair
          (base64Encode (serializeTransaction u1)) (base64Encode (serializeTransaction u2))) ∧
      slotAt u1 i1 = naclSignDetached (serializeMessage t1.message) cfgKP.secretKey ∧
      slotAt u2 i2 = naclSignDetached (serializeMessage t2.message) mintKP.secretKey := by
  obtain ⟨cj, hjc, hkc⟩ := decodeStoredSecret_eq v cfgKP hdc
  obtain ⟨mj, hjm, hkm⟩ := decodeStoredSecret_eq w mintKP hdm
  have hbound1 : i1 < t1.signatures.length := by
    have ha := findSignerIdx_lt _ _ _ hi1
    have hb : (requiredSigners t1).length ≤ t1.message.numRequiredSignatures := by
      rw [requiredSigners, List.length_take]
      exact Nat.min_le_left _ _
    omega
  have hbound2 : i2 < t2.signatures.length := by
    have ha := findSignerIdx_lt _ _ _ hi2
    have hb : (requiredSigners t2).length ≤ t2.message.numRequiredSignatures := by
      rw [requiredSigners, List.length_take]
      exact Nat.min_le_left _ _
    omega
  have ha1 : addSignature t1 cfgKP.publicKey (naclSignDetached (serializeMessage t1.message) cfgKP.secretKey) = some (VersionedTransaction.mk (t1.signatures.set i1 (naclSignDetached (serializeMessage t1.message) cfgKP.secretKey)) t1.message) := by
    unfold addSignature
    rw [if_pos (naclSign_length _ _), hi1]
  have ha2 : addSignature t2 mintKP.publicKey (naclSignDetached (serializeMessage t2.message) mintKP.secretKey) = some (VersionedTransaction.mk (t2.signatures.set i2 (naclSignDetached (serializeMessage t2.message) mintKP.secretKey)) t2.message) := by
    unfold addSignature
    rw [if_pos (naclSign_length _ _), hi2]
  have hmain := signHandler_success_eq store p v w cj mj cfgKP mintKP t1 t2 _ _
    hf hcv hmv hjc hkc hjm hkm ht1 ht2 ha1 ha2
  refine ⟨VersionedTransaction.mk (t1.signatures.set i1 (naclSignDetached (serializeMessage t1.message) cfgKP.secretKey)) t1.message, VersionedTransaction.mk (t2.signatures.set i2 (naclSignDetached (serializeMessage t2.message) mintKP.secretKey)) t2.message, ?_, ?_, ?_⟩
  · rw [hmain]
  · simp only [slotAt]
    exact getD_set_self _ _ _ hbound1
  · simp only [slotAt]
    exact getD_set_self _ _ _ hbound2

/-- C10 witness: both input transactions carry no signature at all. -/
theorem c10_no_signature_precondition_witness :
    c10T1.signatures.all isEmptySlot = true ∧
    c10T2.signatures.all isEmptySlot = true ∧
    (∃ u1 u2,
      (signTokenTxsHandler sampleStore c10Req).fst =
        HandlerResult.response 200 (RespBody.signedPair
          (base64Encode (serializeTransaction u1)) (base64Encode (serializeTransaction u2))) ∧
      slotAt u1 1 = naclSignDetached (serializeMessage c10T1.message) sampleCfgKP.secretKey ∧
      slotAt u2 1 = naclSignDetached (serializeMessage c10T2.message) sampleMintKP.secretKey) :=
  ⟨rfl, rfl,
   c10_no_signature_precondition sampleStore c10Req (jsonArrayString sampleCfgSecret)
     (jsonArrayString sampleMintSecret) sampleCfgKP sampleMintKP c10T1 c10T2 1 1
     rfl rfl rfl rfl rfl rfl rfl rfl rfl (by decide) (by decide) rfl rfl⟩
